import Mathlib

/-
Verification development for the sustainability research agent.

The Python sources under src/sustainability_research_agent are shallowly
embedded: pure string manipulation is reproduced character by character on
List Char (the built-in String library functions do not reduce in the
kernel, so Python-equivalent operations are re-implemented structurally);
the filesystem is an explicit association list from paths to byte lists;
external collaborators (HTTP fetcher, DuckDuckGo provider, completion
service, SHA-256 digest) are oracle parameters; fallible collaborator
calls are Except values, where Except.error models a raised exception.
Counters returned alongside results observe how often an oracle was
invoked.
-/

namespace SearchAgent

/-! Python-faithful string primitives, all structurally recursive so that
concrete instances evaluate by kernel reduction. -/

/-- character-list version of Python str.startswith. -/
def listStarts : List Char → List Char → Bool
  | _, [] => true
  | [], _ :: _ => false
  | a :: as, b :: bs => a == b && listStarts as bs

/-- Python s.startswith(p). -/
def strStartsWith (s p : String) : Bool :=
  listStarts s.data p.data

/-- splits a character list on a separator character, Python str.split. -/
def splitChars (sep : Char) : List Char → List (List Char)
  | [] => [[]]
  | c :: cs =>
    let rest := splitChars sep cs
    if c == sep then [] :: rest
    else
      match rest with
      | [] => [[c]]
      | r :: rs => (c :: r) :: rs

/-- Python s.split(sep) for a one-character separator. -/
def strSplit (s : String) (sep : Char) : List String :=
  (splitChars sep s.data).map (fun cs => ⟨cs⟩)

/-- drops whitespace from both ends of a character list. -/
def trimChars (cs : List Char) : List Char :=
  ((cs.dropWhile Char.isWhitespace).reverse.dropWhile Char.isWhitespace).reverse

/-- Python s.strip() (ASCII whitespace). -/
def strTrim (s : String) : String := ⟨trimChars s.data⟩

/-- Python s.lower() (ASCII case folding). -/
def strToLower (s : String) : String := ⟨s.data.map Char.toLower⟩

/-- Python s.replace(a, b) for one-character patterns. -/
def strReplaceChar (s : String) (a b : Char) : String :=
  ⟨s.data.map (fun c => if c == a then b else c)⟩

/-- Python s[:n]. -/
def strTakeN (s : String) (n : Nat) : String := ⟨s.data.take n⟩

/-- head character of a string, used to separate sentinel strings from paths. -/
def headChar (s : String) : Option Char := s.data.head?

/-- substring containment stated on the underlying character lists. -/
def strContains (s t : String) : Prop :=
  ∃ l r : List Char, s.data = l ++ t.data ++ r

/-- generic association-list lookup keyed by strings, Python dict access. -/
def listLookup {α : Type} : List (String × α) → String → Option α
  | [], _ => none
  | e :: rest, k => if e.1 == k then some e.2 else listLookup rest k

/-- Python k in d for a dict modelled as an association list. -/
def hasKey {α : Type} (l : List (String × α)) (k : String) : Bool :=
  l.any (fun p => p.1 == k)

/-- Python truthiness of an optional string: None and the empty string are falsy. -/
def pyTruthy : Option String → Bool
  | none => false
  | some s => !(s == "")

/-- joins strings with a separator, Python sep.join(parts). -/
def joinWith (sep : String) : List String → String
  | [] => ""
  | [s] => s
  | s :: rest => s ++ sep ++ joinWith sep rest

/-! Filesystem model: an association list from paths to byte contents.
Directory creation (os.makedirs) is a no-op here, and os.remove is modelled
as succeeding. -/

/-- on-disk state: pairs of path and file bytes. -/
abbrev FileSys := List (String × List Nat)

/-- Python os.path.exists. -/
def fsExists (fs : FileSys) (p : String) : Bool :=
  fs.any (fun e => e.1 == p)

/-- whole-file write, open(p, wb): truncates any existing file at p. -/
def fsWrite (fs : FileSys) (p : String) (c : List Nat) : FileSys :=
  (p, c) :: fs.filter (fun e => !(e.1 == p))

/-- Python os.remove guarded by os.path.exists. -/
def fsRemove (fs : FileSys) (p : String) : FileSys :=
  fs.filter (fun e => !(e.1 == p))

/-! Embedding of research_agent/file_tools.py. -/

/-- scheme characters admitted by urllib.parse after the leading letter. -/
def isSchemeChar (c : Char) : Bool :=
  c.isAlphanum || c == '+' || c == '-' || c == '.'

/-- splits a character list at the first colon, if any. -/
def schemeSplit : List Char → Option (List Char × List Char)
  | [] => none
  | c :: cs =>
    if c == ':' then some ([], cs)
    else
      match schemeSplit cs with
      | some (s, r) => some (c :: s, r)
      | none => none

/-- urllib.parse.urlparse restricted to the (scheme, netloc, path) triple
used by the source; scheme is lowercased as urlparse does. -/
def parseUrl (url : String) : String × String × String :=
  let cs := url.data
  let schemeRest :=
    match schemeSplit cs with
    | some (s, r) =>
      if s ≠ [] && (s.headD ' ').isAlpha && s.all isSchemeChar then (s.map Char.toLower, r)
      else ([], cs)
    | none => ([], cs)
  let rest := schemeRest.2
  let netlocRest :=
    if rest.take 2 == ['/', '/'] then
      let after := rest.drop 2
      (after.takeWhile (fun c => !(c == '/') && !(c == '?') && !(c == '#')),
       after.dropWhile (fun c => !(c == '/') && !(c == '?') && !(c == '#')))
    else ([], rest)
  let path := netlocRest.2.takeWhile (fun c => !(c == '?') && !(c == '#'))
  (⟨schemeRest.1⟩, ⟨netlocRest.1⟩, ⟨path⟩)

/-- file_tools._is_valid_url: http or https scheme and a nonempty netloc. -/
def is_valid_url (url : String) : Bool :=
  let p := parseUrl url
  (p.1 == "http" || p.1 == "https") && !(p.2.1 == "")

/-- value of one hexadecimal digit character, by code point. -/
def hexDigitValue (c : Char) : Option Nat :=
  let n := c.toNat
  if 48 ≤ n && n ≤ 57 then some (n - 48)
  else if 97 ≤ n && n ≤ 102 then some (n - 87)
  else if 65 ≤ n && n ≤ 70 then some (n - 55)
  else none

/-- urllib.parse.unquote, per escaped byte (multi-byte UTF-8 sequences are
decoded code point by code point, which agrees on ASCII). -/
def percentDecode : List Char → List Char
  | '%' :: h1 :: h2 :: rest =>
    match hexDigitValue h1, hexDigitValue h2 with
    | some a, some b => Char.ofNat (16 * a + b) :: percentDecode rest
    | _, _ => '%' :: percentDecode (h1 :: h2 :: rest)
  | c :: rest => c :: percentDecode rest
  | [] => []

/-- Python os.path.basename: the segment after the last slash. -/
def afterLastSlash (cs : List Char) : List Char :=
  cs.foldl (fun acc c => if c == '/' then [] else acc ++ [c]) []

/-- index of the last occurrence of a character. -/
def lastIdxOf (c : Char) : List Char → Option Nat
  | [] => none
  | a :: as =>
    match lastIdxOf c as with
    | some i => some (i + 1)
    | none => if a == c then some 0 else none

/-- Python os.path.splitext: splits at the last dot, ignoring leading dots. -/
def splitExt (s : String) : String × String :=
  let cs := s.data
  let lead := (cs.takeWhile (· == '.')).length
  match lastIdxOf '.' cs with
  | none => (s, "")
  | some i => if i < lead then (s, "") else (⟨cs.take i⟩, ⟨cs.drop i⟩)

/-- file_tools._url_to_filename. The SHA-256 hex digest is an oracle
parameter sha256hex; the Python fallback except-branch cannot fire in this
total model. -/
def url_to_filename (sha256hex : String → String) (url : String) : String :=
  let url_hash := sha256hex url
  let path := (parseUrl url).2.2
  let raw_name : String := ⟨afterLastSlash (percentDecode path.data)⟩
  let safe_name : String :=
    ⟨raw_name.data.filter (fun c => c.isAlphanum || c == '_' || c == '-' || c == '.')⟩
  let be := splitExt safe_name
  if strToLower be.2 == ".pdf" && !(be.1 == "") then
    strTakeN be.1 50 ++ "_" ++ strTakeN url_hash 10 ++ be.2
  else
    url_hash ++ ".pdf"

/-- cache directory constant; the absolute project-root part of the source
path is elided, which affects no claim. -/
def CACHE_DIR : String := "pdf_cache"

/-- local cache path derived for a URL, os.path.join(CACHE_DIR, filename). -/
def cachePath (sha256hex : String → String) (url : String) : String :=
  CACHE_DIR ++ "/" ++ url_to_filename sha256hex url

/-- outcome of one requests.get attempt. A leftover value models the bytes
already written when the exception interrupted the chunked body copy; none
means the exception fired before the output file was opened. -/
inductive Fetch where
  | success (content : List Nat)
  | timeout (leftover : Option (List Nat)) (msg : String)
  | reqErr (leftover : Option (List Nat)) (msg : String)
  | unexpected (leftover : Option (List Nat)) (msg : String)

/-- applies the partially written bytes of an interrupted attempt. -/
def applyLeftover (fs : FileSys) (path : String) : Option (List Nat) → FileSys
  | none => fs
  | some bs => fsWrite fs path bs

/-- retry loop of file_tools.download_pdf: fuel counts the remaining
attempts of MAX_DOWNLOAD_RETRIES = 3, attempt indexes the fetch oracle,
and the final component counts fetch invocations. The fuel-exhausted case
is the unreachable fallback return after the Python for loop. -/
def dlGo (url path : String) (oracle : Nat → Fetch) :
    Nat → Nat → FileSys → Nat → String × FileSys × Nat
  | 0, _, fs, calls =>
    ("Error: Failed to download PDF from " ++ url ++ " after 3 attempts (unknown reason).",
     fs, calls)
  | fuel + 1, attempt, fs, calls =>
    match oracle attempt with
    | .success content => (path, fsWrite fs path content, calls + 1)
    | .timeout lo msg =>
      let fs1 := applyLeftover fs path lo
      if fuel = 0 then
        ("Error: Failed to download PDF from " ++ url ++
           (" after 3 attempts due to timeout. Reason: " ++ msg),
         fsRemove fs1 path, calls + 1)
      else dlGo url path oracle fuel (attempt + 1) fs1 (calls + 1)
    | .reqErr lo msg =>
      let fs1 := applyLeftover fs path lo
      if fuel = 0 then
        ("Error: Failed to download PDF from " ++ url ++
           (" after 3 attempts. Reason: " ++ msg),
         fsRemove fs1 path, calls + 1)
      else dlGo url path oracle fuel (attempt + 1) fs1 (calls + 1)
    | .unexpected lo msg =>
      let fs1 := applyLeftover fs path lo
      if fuel = 0 then
        ("Error: An unexpected error occurred during download from " ++ url ++
           (" after 3 attempts. Details: " ++ msg),
         fsRemove fs1 path, calls + 1)
      else dlGo url path oracle fuel (attempt + 1) fs1 (calls + 1)

/-- file_tools.download_pdf: URL validation, cache-hit short circuit, then
the bounded retry loop; returns the result string, the filesystem after the
call, and the number of fetch invocations. -/
def download_pdf (sha256hex : String → String) (oracle : Nat → Fetch)
    (url : String) (fs : FileSys) : String × FileSys × Nat :=
  if !(is_valid_url url) then
    ("Error: Invalid URL provided: " ++ url, fs, 0)
  else
    let local_filepath := cachePath sha256hex url
    if fsExists fs local_filepath then (local_filepath, fs, 0)
    else dlGo url local_filepath oracle 3 0 fs 0

/-! Embedding of research_agent/research_tools.py. -/

/-- research_tools._process_single_report_download_extract, with the two
file tools as oracles. Both tools catch their own exceptions and return
sentinel strings, so they are total here; the enclosing Python try-except
is represented at the executor level. -/
def process_single_report_download_extract (downloadTool extractTool : String → String)
    (company : String) (url : Option String) : String × String :=
  match url with
  | none => (company, "No valid URL found.")
  | some u =>
    if strStartsWith u "Error" then (company, "No valid URL found.")
    else
      let local_path := downloadTool u
      if strStartsWith local_path "Error" then
        (company, "Download failed: " ++ local_path)
      else
        (company, extractTool local_path)

/-- per-key collection step of download_and_extract_reports: a worker that
raised is converted to the Error sentinel for its own key. -/
def dlerEntry (job : String → Option String → Except String String)
    (cu : String × Option String) : String × String :=
  match job cu.1 cu.2 with
  | .ok r => (cu.1, r)
  | .error e => (cu.1, "Error retrieving download/extract result: " ++ e)

/-- research_tools.download_and_extract_reports: the thread-pool fan-out.
job models the submitted worker; Except.error is a worker that raised.
Completion order only permutes dictionary insertion order, never the key
set, so the merge is modelled in input order. -/
def download_and_extract_reports (job : String → Option String → Except String String)
    (report_urls : List (String × Option String)) : List (String × String) :=
  report_urls.map (dlerEntry job)

/-- summary cache filename for a company, research_tools line 95. -/
def cacheFilename (company : String) : String :=
  strToLower (strReplaceChar company ' ' '_') ++ "_summary.txt"

/-- a summary cache file either reads back its content or raises on read. -/
inductive CacheFile where
  | readable (content : String)
  | unreadable
  deriving DecidableEq

/-- summarization-stage state: the summary cache plus counters observing
how often a cache file was opened for reading and how often the
summarization chain was invoked. -/
structure SumSt where
  cache : List (String × CacheFile)
  cacheReads : Nat
  llmCalls : Nat
  deriving DecidableEq

/-- cache-miss branch of research_tools._process_single_summary: invoke
the chain, convert a raised exception or empty output to an Error
sentinel, otherwise persist to the summary cache (when the write succeeds)
and return the summary. -/
def summaryComputeBranch (chain : String → Except String String) (writeOk : Bool)
    (company t : String) (st1 : SumSt) : (String × String) × SumSt :=
  let fname := cacheFilename company
  match chain t with
  | .error e =>
    ((company, "Error during summarization: " ++ e),
     { st1 with llmCalls := st1.llmCalls + 1 })
  | .ok s =>
    if s = "" then
      ((company, "Error: Summarization resulted in empty output."),
       { st1 with llmCalls := st1.llmCalls + 1 })
    else
      ((company, s),
       { st1 with
          cache := if writeOk then (fname, .readable s) :: st1.cache.filter (fun e => !(e.1 == fname))
                   else st1.cache,
          llmCalls := st1.llmCalls + 1 })

/-- research_tools._process_single_summary. The text splitter plus
summarize_chain.ainvoke composite is the oracle chain on the raw text
(the chunking is deterministic and private to the opaque chain); writeOk
models whether the cache write succeeds, since a failed write is caught
and logged. text is Option String because the Python value can be None. -/
def process_single_summary (chain : String → Except String String) (writeOk : Bool)
    (company : String) (text : Option String) (st : SumSt) : (String × String) × SumSt :=
  match text with
  | none => ((company, "Skipped due to previous error or empty text."), st)
  | some t =>
    if strStartsWith t "Error" || strStartsWith t "Warning" ||
        t == "No valid URL found." || strTrim t == "" then
      ((company, "Skipped due to previous error or empty text."), st)
    else
      match listLookup st.cache (cacheFilename company) with
      | some (.readable c) => ((company, c), { st with cacheReads := st.cacheReads + 1 })
      | some .unreadable =>
        summaryComputeBranch chain writeOk company t { st with cacheReads := st.cacheReads + 1 }
      | none => summaryComputeBranch chain writeOk company t st

/-- per-key collection step of summarize_extracted_texts: a gathered task
that raised becomes the Error sentinel for its own key. -/
def sumEntry (job : String → String → Except String String)
    (ct : String × String) : String × String :=
  match job ct.1 ct.2 with
  | .ok s => (ct.1, s)
  | .error e => (ct.1, "Error retrieving summarization result: " ++ e)

/-- research_tools.summarize_extracted_texts: asyncio.gather fan-out with
return_exceptions=True; chainProvided is false when summarize_chain is
None. -/
def summarize_extracted_texts (chainProvided : Bool)
    (job : String → String → Except String String)
    (extracted_texts : List (String × String)) : List (String × String) :=
  if !chainProvided then
    extracted_texts.map (fun ct => (ct.1, "Error: Summarization chain not provided."))
  else
    extracted_texts.map (sumEntry job)

/-! Embedding of research_agent/search_tool.py. -/

/-- one DuckDuckGo result row; absent fields display as N/A. -/
structure SearchResult where
  title : Option String
  href : Option String
  body : Option String

/-- decimal digits of a natural number, fuel-based so it kernel-reduces. -/
def decimalChars : Nat → Nat → List Char
  | 0, _ => []
  | fuel + 1, n =>
    let d := Char.ofNat (48 + n % 10)
    if n < 10 then [d] else decimalChars fuel (n / 10) ++ [d]

/-- decimal rendering of a natural number. -/
def natToStr (n : Nat) : String := ⟨decimalChars (n + 1) n⟩

/-- formatted block for one result at 1-based index i. -/
def formatResult (i : Nat) (r : SearchResult) : String :=
  natToStr i ++ ". Title: " ++ r.title.getD "N/A" ++ "\n" ++
    "   URL: " ++ r.href.getD "N/A" ++ "\n" ++
    "   Snippet: " ++ r.body.getD "N/A" ++ "\n\n"

/-- enumerated concatenation of result blocks. -/
def formatResultsFrom (i : Nat) : List SearchResult → String
  | [] => ""
  | r :: rest => formatResult i r ++ formatResultsFrom (i + 1) rest

/-- search_tool._perform_duckduckgo_search: the DDGS provider is an oracle
whose error constructor is a raised provider exception, caught here and
returned as text. The query only feeds the provider. -/
def perform_duckduckgo_search (ddgs : String → Except String (List SearchResult))
    (query : String) (max_results : Nat) : String :=
  match ddgs query with
  | .error e => "Error during search: " ++ e
  | .ok rs =>
    if rs.isEmpty then "No relevant search results found."
    else
      let results_list := rs.take max_results
      if results_list.isEmpty then "No relevant search results found."
      else strTrim ("Search Results:\n\n" ++ formatResultsFrom 1 results_list)

/-! Embedding of research_agent/graph_builder.py. -/

/-- lowercased character list, for the IGNORECASE regex comparison. -/
def lowerList (cs : List Char) : List Char := cs.map Char.toLower

/-- ends-with test on character lists. -/
def listEndsWith (l suf : List Char) : Bool :=
  l.drop (l.length - suf.length) == suf && suf.length ≤ l.length

/-- largest k with 5 ≤ k ≤ bound such that the first k characters of run
end in .pdf (case-insensitive): the greedy backtracking of regex
https?://\S+\.pdf inside one non-whitespace stretch. -/
def pdfEndSearch (run : List Char) : Nat → Option Nat
  | 0 => none
  | k + 1 =>
    if 5 ≤ k + 1 && listEndsWith (lowerList (run.take (k + 1))) ['.', 'p', 'd', 'f'] then
      some (k + 1)
    else pdfEndSearch run k

/-- attempts the regex match at the head of the character list. -/
def matchPdfAt (cs : List Char) : Option (List Char) :=
  let schemeLen :=
    if lowerList (cs.take 8) == "https://".data then some 8
    else if lowerList (cs.take 7) == "http://".data then some 7
    else none
  match schemeLen with
  | none => none
  | some n =>
    let run := (cs.drop n).takeWhile (fun c => !c.isWhitespace)
    match pdfEndSearch run run.length with
    | some k => some (cs.take n ++ run.take k)
    | none => none

/-- leftmost match of the PDF-URL pattern, re.findall(...)[0]. -/
def firstPdfScan : List Char → Option (List Char)
  | [] => none
  | c :: cs =>
    match matchPdfAt (c :: cs) with
    | some m => some m
    | none => firstPdfScan cs

/-- first URL in the text ending in .pdf, as scanned by search_for_reports. -/
def firstPdfLink (s : String) : Option String :=
  (firstPdfScan s.data).map (fun cs => ⟨cs⟩)

/-- search query template of search_for_reports. -/
def searchQuery (company : String) : String :=
  company ++ " sustainability report 2023 OR 2024 pdf filetype:pdf"

/-- value recorded for one company from one search-tool result. -/
def searchRecord (toolRun : String → Except String String) (company : String) : Option String :=
  match toolRun (searchQuery company) with
  | .error e => some ("Error during search: " ++ e)
  | .ok s => firstPdfLink s

/-- loop body of graph_builder.search_for_reports; counts tool calls. -/
def searchLoop (toolRun : String → Except String String) :
    List String → List (String × Option String) → Nat → List (String × Option String) × Nat
  | [], urls, n => (urls, n)
  | c :: rest, urls, n =>
    if hasKey urls c then searchLoop toolRun rest urls n
    else searchLoop toolRun rest (urls ++ [(c, searchRecord toolRun c)]) (n + 1)

/-- graph_builder.search_for_reports over the companies of the state,
starting from the report_urls already recorded. The tool oracle raises via
Except.error (the except branch of the node); a provider failure inside the
tool is instead an ok result carrying the error text. -/
def search_for_reports (toolRun : String → Except String String)
    (companies : List String) (report_urls : List (String × Option String)) :
    List (String × Option String) × Nat :=
  searchLoop toolRun companies report_urls 0

/-- UnifiedGraphState of graph_builder.py; the inherited chat-history
messages are not needed by any claim and are omitted. Mappings are
association lists in dictionary insertion order. -/
structure GraphState where
  input_query : Option String := none
  industry : Option String := none
  agent_response : Option String := none
  companies : Option (List String) := none
  report_urls : Option (List (String × Option String)) := none
  extracted_texts : Option (List (String × String)) := none
  individual_summaries : Option (List (String × String)) := none
  synthesis_result : Option String := none
  error_message : Option String := none
  deriving DecidableEq

/-- graph_builder.decide_route: the conditional-edge key for a state,
following Python truthiness of state.get. -/
def decide_route (st : GraphState) : String :=
  if pyTruthy st.industry then "research_path"
  else if pyTruthy st.input_query then "basic_agent_path"
  else "error"

/-- conditional-edge mapping registered in build_unified_graph. -/
def route_conditional_edges : List (String × String) :=
  [("basic_agent_path", "run_basic_agent"),
   ("research_path", "identify_companies"),
   ("error", "handle_error")]

/-- node reached from route_request for a given state. -/
def routeTarget (st : GraphState) : Option String :=
  listLookup route_conditional_edges (decide_route st)

/-- comma parse of the completion response in identify_companies:
stripped segments, empty ones dropped, order preserved. -/
def parse_companies (content : String) : List String :=
  ((strSplit content ',').map strTrim).filter (fun s => !(s == ""))

/-- graph_builder.identify_companies (nested node). The oracle stands for
prompt-file read, formatting and llm.invoke(...).content; its error
constructor is the except branch. -/
def identify_companies (oracle : String → Except String String) (st : GraphState) : GraphState :=
  if st.error_message.isSome then st
  else
    match oracle (st.industry.getD "") with
    | .error e => { st with error_message := some ("Failed to identify companies: " ++ e) }
    | .ok content =>
      let companies := parse_companies content
      if companies.isEmpty then
        let msg := "Could not identify companies for industry \x27" ++ st.industry.getD "" ++ "\x27."
        { st with error_message := some msg }
      else
        { st with
            companies := some companies,
            report_urls := some [],
            extracted_texts := some [],
            individual_summaries := some [] }

/-- display of a report URL in the synthesis header; a key holding None
renders as the Python string None. -/
def urlDisplay : Option (Option String) → String
  | none => "URL not found/processed"
  | some none => "None"
  | some (some u) => u

/-- filter of synthesize_trends: a usable summary is nonempty and carries
neither an Error nor a Skipped sentinel. -/
def valid_summaries (summaries : List (String × String)) : List (String × String) :=
  summaries.filter (fun cs =>
    !(cs.2 == "") && !(strStartsWith cs.2 "Error") && !(strStartsWith cs.2 "Skipped"))

/-- combined labelled summaries fed to the synthesis prompt. -/
def combinedSummaries (valid : List (String × String)) : String :=
  joinWith "\n\n" (valid.map (fun cs => "--- Summary for " ++ cs.1 ++ " ---\n" ++ cs.2))

/-- final result string assembled on synthesis success. -/
def assembleSynthesis (report_urls : List (String × Option String))
    (valid : List (String × String)) (synthesis : String) : String :=
  let report_list :=
    joinWith "\n" (valid.map (fun cs => "- " ++ cs.1 ++ ": " ++ urlDisplay (listLookup report_urls cs.1)))
  let report_list := if report_list == "" then "No report URLs were successfully processed." else report_list
  "Analysis based on reports processed for:\n" ++ report_list ++ "\n\n" ++
    "--- Synthesized Trends ---\n" ++ synthesis

/-- graph_builder.synthesize_trends (nested node), with the number of
completion-service invocations. The oracle covers prompt-file read,
formatting and llm.invoke on (industry, combined summaries); its error
constructor is the except branch. -/
def synthesize_trends (oracle : String → String → Except String String)
    (st : GraphState) : GraphState × Nat :=
  if st.error_message.isSome then (st, 0)
  else
    let valid := valid_summaries (st.individual_summaries.getD [])
    if valid.isEmpty then
      ({ st with error_message := some "Analysis failed: No valid summaries could be generated." }, 0)
    else
      match oracle (st.industry.getD "") (combinedSummaries valid) with
      | .error e =>
        ({ st with error_message := some ("Failed during the final synthesis step: " ++ e) }, 1)
      | .ok synthesis =>
        let res := assembleSynthesis (st.report_urls.getD []) valid synthesis
        ({ st with synthesis_result := some res }, 1)

/-! Embedding of research_agent/database.py. -/

/-- row of the analysis_tasks table; timestamp is the CURRENT_TIMESTAMP
supplied by the caller as a clock value. -/
structure TaskRecord where
  task_id : String
  industry : String
  status : String
  result_summary : Option String
  start_time : Option String
  duration_seconds : Option Int
  timestamp : Nat
  deriving DecidableEq

/-- start-time resolution of database.log_task_status: a truthy stored
start_time is kept when the update passes a falsy one. -/
def finalStartTime (existing : Option TaskRecord) (start_time : Option String) : Option String :=
  match existing with
  | some r => if pyTruthy r.start_time && !(pyTruthy start_time) then r.start_time else start_time
  | none => start_time

/-- database.log_task_status: reads any existing row for the task id to
resolve the stored start_time, then INSERT OR REPLACE keyed on the primary
key task_id. -/
def log_task_status (now : Nat) (task_id industry status : String)
    (result_summary : Option String) (start_time : Option String)
    (duration_seconds : Option Int) (tbl : List TaskRecord) : List TaskRecord :=
  tbl.filter (fun r => !(r.task_id == task_id)) ++
    [⟨task_id, industry, status, result_summary,
      finalStartTime (tbl.find? (fun r => r.task_id == task_id)) start_time,
      duration_seconds, now⟩]

/-! Shared helper lemmas. -/

theorem strDataAppend (a b : String) : (a ++ b).data = a.data ++ b.data := by
  cases a; cases b; rfl

theorem headChar_append (a b : String) (c : Char) (h : headChar a = some c) :
    headChar (a ++ b) = some c := by
  unfold headChar at h ⊢
  rw [strDataAppend]
  cases ha : a.data with
  | nil => rw [ha] at h; cases h
  | cons x xs =>
    rw [ha] at h
    simp only [List.head?] at h ⊢
    exact h

theorem strNe_of_headChar (s t : String) (c d : Char) (hs : headChar s = some c)
    (ht : headChar t = some d) (hcd : c ≠ d) : s ≠ t := by
  intro h
  rw [h, ht] at hs
  exact hcd (Option.some.inj hs).symm

theorem fsExists_fsWrite_self (fs : FileSys) (p : String) (c : List Nat) :
    fsExists (fsWrite fs p c) p = true := by
  simp [fsExists, fsWrite]

theorem fsExists_fsRemove_self (fs : FileSys) (p : String) :
    fsExists (fsRemove fs p) p = false := by
  induction fs with
  | nil => rfl
  | cons a as ih =>
    show fsExists (List.filter (fun e => !(e.1 == p)) (a :: as)) p = false
    rw [List.filter_cons]
    by_cases h : a.1 = p
    · have hb : (a.1 == p) = true := by simpa using h
      simp only [hb, Bool.not_true, Bool.false_eq_true, if_false]
      exact ih
    · have hb : (a.1 == p) = false := by simpa using h
      simp only [hb, Bool.not_false, if_true, fsExists, List.any_cons, Bool.or_eq_false_iff]
      exact ⟨trivial, ih⟩

theorem hasKey_append {α : Type} (l1 l2 : List (String × α)) (k : String) :
    hasKey (l1 ++ l2) k = (hasKey l1 k || hasKey l2 k) := by
  simp [hasKey, List.any_append]

theorem find_filtered_append {α : Type} (l : List α) (p : α → Bool) (a : α)
    (ha : p a = true) :
    ((l.filter (fun x => !(p x))) ++ [a]).find? p = some a := by
  induction l with
  | nil => simp [List.find?, ha]
  | cons b bs ih =>
    by_cases h : p b = true
    · simpa [List.filter, h] using ih
    · have hb : p b = false := by simpa using h
      simp only [List.filter, hb]
      simpa [List.find?, hb] using ih

theorem countP_filtered_append {α : Type} (l : List α) (p : α → Bool) (a : α)
    (ha : p a = true) :
    ((l.filter (fun x => !(p x))) ++ [a]).countP p = 1 := by
  rw [List.countP_append]
  have h0 : (l.filter (fun x => !(p x))).countP p = 0 := by
    rw [List.countP_eq_zero]
    intro x hx
    rcases List.mem_filter.mp hx with ⟨_, hpx⟩
    simp at hpx
    simp [hpx]
  rw [h0]
  simp [List.countP, List.countP.go, ha]

theorem dlerEntry_fst (job : String → Option String → Except String String)
    (cu : String × Option String) : (dlerEntry job cu).1 = cu.1 := by
  unfold dlerEntry
  cases job cu.1 cu.2 <;> rfl

theorem sumEntry_fst (job : String → String → Except String String)
    (ct : String × String) : (sumEntry job ct).1 = ct.1 := by
  unfold sumEntry
  cases job ct.1 ct.2 <;> rfl

theorem dler_map_fst (job : String → Option String → Except String String)
    (urls : List (String × Option String)) :
    (download_and_extract_reports job urls).map Prod.fst = urls.map Prod.fst := by
  rw [download_and_extract_reports, List.map_map]
  exact List.map_congr_left (fun cu _ => dlerEntry_fst job cu)

theorem sum_map_fst (chainProvided : Bool) (job : String → String → Except String String)
    (texts : List (String × String)) :
    (summarize_extracted_texts chainProvided job texts).map Prod.fst = texts.map Prod.fst := by
  cases chainProvided with
  | false =>
    show (texts.map (fun ct => (ct.1, "Error: Summarization chain not provided."))).map Prod.fst
      = texts.map Prod.fst
    rw [List.map_map]
    exact List.map_congr_left (fun ct _ => rfl)
  | true =>
    show (texts.map (sumEntry job)).map Prod.fst = texts.map Prod.fst
    rw [List.map_map]
    exact List.map_congr_left (fun ct _ => sumEntry_fst job ct)

theorem dler_error_mem (job : String → Option String → Except String String)
    (urls : List (String × Option String)) (c : String) (u : Option String) (e : String)
    (hmem : (c, u) ∈ urls) (hjob : job c u = Except.error e) :
    (c, "Error retrieving download/extract result: " ++ e)
      ∈ download_and_extract_reports job urls := by
  induction urls with
  | nil => cases hmem
  | cons a as ih =>
    rcases List.mem_cons.mp hmem with h | h
    · rw [download_and_extract_reports, List.map_cons]
      have hh : dlerEntry job a = (c, "Error retrieving download/extract result: " ++ e) := by
        rw [← h]
        unfold dlerEntry
        rw [hjob]
      rw [hh]
      exact List.mem_cons_self _ _
    · exact List.mem_cons_of_mem _ (ih h)

theorem dler_sibling_indep (job job2 : String → Option String → Except String String)
    (urls : List (String × Option String)) (k : String)
    (hagree : ∀ c u, c ≠ k → job2 c u = job c u) :
    (download_and_extract_reports job2 urls).filter (fun p => !(p.1 == k))
      = (download_and_extract_reports job urls).filter (fun p => !(p.1 == k)) := by
  induction urls with
  | nil => rfl
  | cons a as ih =>
    rw [download_and_extract_reports, download_and_extract_reports,
      List.map_cons, List.map_cons, List.filter_cons, List.filter_cons]
    by_cases hk : a.1 = k
    · have h2 : ((dlerEntry job2 a).1 == k) = true := by rw [dlerEntry_fst]; simpa using hk
      have h1 : ((dlerEntry job a).1 == k) = true := by rw [dlerEntry_fst]; simpa using hk
      simp only [h1, h2, Bool.not_true, Bool.false_eq_true, if_false]
      exact ih
    · have he : dlerEntry job2 a = dlerEntry job a := by
        unfold dlerEntry
        rw [hagree a.1 a.2 hk]
      rw [he]
      have ih2 : (List.map (dlerEntry job2) as).filter (fun p => !(p.1 == k))
          = (List.map (dlerEntry job) as).filter (fun p => !(p.1 == k)) := ih
      rw [ih2]

theorem sum_error_mem (job : String → String → Except String String)
    (texts : List (String × String)) (c t e : String)
    (hmem : (c, t) ∈ texts) (hjob : job c t = Except.error e) :
    (c, "Error retrieving summarization result: " ++ e)
      ∈ summarize_extracted_texts true job texts := by
  show (c, "Error retrieving summarization result: " ++ e) ∈ texts.map (sumEntry job)
  induction texts with
  | nil => cases hmem
  | cons a as ih =>
    rcases List.mem_cons.mp hmem with h | h
    · rw [List.map_cons]
      have hh : sumEntry job a = (c, "Error retrieving summarization result: " ++ e) := by
        rw [← h]
        unfold sumEntry
        rw [hjob]
      rw [hh]
      exact List.mem_cons_self _ _
    · exact List.mem_cons_of_mem _ (ih h)

theorem sum_sibling_indep (job job2 : String → String → Except String String)
    (texts : List (String × String)) (k : String)
    (hagree : ∀ c t, c ≠ k → job2 c t = job c t) :
    (summarize_extracted_texts true job2 texts).filter (fun p => !(p.1 == k))
      = (summarize_extracted_texts true job texts).filter (fun p => !(p.1 == k)) := by
  show (texts.map (sumEntry job2)).filter (fun p => !(p.1 == k))
    = (texts.map (sumEntry job)).filter (fun p => !(p.1 == k))
  induction texts with
  | nil => rfl
  | cons a as ih =>
    rw [List.map_cons, List.map_cons, List.filter_cons, List.filter_cons]
    by_cases hk : a.1 = k
    · have h2 : ((sumEntry job2 a).1 == k) = true := by rw [sumEntry_fst]; simpa using hk
      have h1 : ((sumEntry job a).1 == k) = true := by rw [sumEntry_fst]; simpa using hk
      simp only [h1, h2, Bool.not_true, Bool.false_eq_true, if_false]
      exact ih
    · have he : sumEntry job2 a = sumEntry job a := by
        unfold sumEntry
        rw [hagree a.1 a.2 hk]
      rw [he]
      have ih2 : (List.map (sumEntry job2) as).filter (fun p => !(p.1 == k))
          = (List.map (sumEntry job) as).filter (fun p => !(p.1 == k)) := ih
      rw [ih2]

/-! Claim theorems. -/

/-- C8: the routing function sends a state with a truthy industry to the
research path (identify_companies), otherwise a truthy input_query to
run_basic_agent, and otherwise to handle_error, never reaching
run_basic_agent or identify_companies. -/
theorem route_request_cases (st : GraphState) :
    (pyTruthy st.industry = true →
      decide_route st = "research_path" ∧ routeTarget st = some "identify_companies")
    ∧ (pyTruthy st.industry = false → pyTruthy st.input_query = true →
      decide_route st = "basic_agent_path" ∧ routeTarget st = some "run_basic_agent")
    ∧ (pyTruthy st.industry = false → pyTruthy st.input_query = false →
      decide_route st = "error" ∧ routeTarget st = some "handle_error"
        ∧ routeTarget st ≠ some "run_basic_agent" ∧ routeTarget st ≠ some "identify_companies") := by
  refine ⟨fun h => ?_, fun h1 h2 => ?_, fun h1 h2 => ?_⟩
  · have hr : decide_route st = "research_path" := by simp [decide_route, h]
    exact ⟨hr, by rw [routeTarget, hr]; decide⟩
  · have hr : decide_route st = "basic_agent_path" := by simp [decide_route, h1, h2]
    exact ⟨hr, by rw [routeTarget, hr]; decide⟩
  · have hr : decide_route st = "error" := by simp [decide_route, h1, h2]
    have ht : routeTarget st = some "handle_error" := by rw [routeTarget, hr]; decide
    refine ⟨hr, ht, ?_, ?_⟩ <;> rw [ht] <;> decide

/-- C8 witness: an empty request routes to handle_error. -/
theorem route_request_cases_witness :
    decide_route ⟨none, none, none, none, none, none, none, none, none⟩ = "error"
    ∧ routeTarget ⟨none, none, none, none, none, none, none, none, none⟩ = some "handle_error"
    ∧ routeTarget ⟨none, none, none, none, none, none, none, none, none⟩ ≠ some "run_basic_agent"
    ∧ routeTarget ⟨none, none, none, none, none, none, none, none, none⟩ ≠ some "identify_companies" :=
  (route_request_cases _).2.2 (by decide) (by decide)

/-- C5: when every summary entry is empty or carries an Error or Skipped
sentinel and no prior error is set, synthesize_trends records exactly the
message Analysis failed: No valid summaries could be generated., leaves
synthesis_result untouched, and never invokes the completion service. -/
theorem synthesize_all_invalid (oracle : String → String → Except String String)
    (st : GraphState) (m : List (String × String))
    (he : st.error_message = none) (hm : st.individual_summaries = some m)
    (hall : ∀ p ∈ m, p.2 = "" ∨ strStartsWith p.2 "Error" = true ∨ strStartsWith p.2 "Skipped" = true) :
    (synthesize_trends oracle st).1.error_message
        = some "Analysis failed: No valid summaries could be generated."
    ∧ (synthesize_trends oracle st).1.synthesis_result = st.synthesis_result
    ∧ (synthesize_trends oracle st).2 = 0 := by
  have hv : valid_summaries m = [] := by
    rw [valid_summaries, List.filter_eq_nil_iff]
    intro p hp
    rcases hall p hp with h | h | h <;> simp [h]
  unfold synthesize_trends
  simp [he, hm, hv]

/-- C5 witness: a mapping whose entries are all Error-tagged or empty
fails the pipeline with the exact message and zero service calls. -/
theorem synthesize_all_invalid_witness :
    (synthesize_trends (fun _ _ => Except.ok "S")
        ⟨none, some "tech", none, some ["A", "B"], some [], none,
          some [("A", "Error: x"), ("B", "")], none, none⟩).1.error_message
      = some "Analysis failed: No valid summaries could be generated."
    ∧ (synthesize_trends (fun _ _ => Except.ok "S")
        ⟨none, some "tech", none, some ["A", "B"], some [], none,
          some [("A", "Error: x"), ("B", "")], none, none⟩).1.synthesis_result = none
    ∧ (synthesize_trends (fun _ _ => Except.ok "S")
        ⟨none, some "tech", none, some ["A", "B"], some [], none,
          some [("A", "Error: x"), ("B", "")], none, none⟩).2 = 0 :=
  synthesize_all_invalid _ _ [("A", "Error: x"), ("B", "")] rfl rfl (by decide)

/-- C6: a None, empty, whitespace-only, No valid URL found., Error-tagged
or Warning-tagged input text makes the summarization step return the
Skipped sentinel with the state untouched: no cache read and no
completion-service call. -/
theorem summarize_skip_sentinel (chain : String → Except String String) (writeOk : Bool)
    (company : String) (text : Option String) (st : SumSt)
    (h : text = none ∨ ∃ t, text = some t ∧
      (strStartsWith t "Error" = true ∨ strStartsWith t "Warning" = true ∨
        t = "No valid URL found." ∨ strTrim t = "")) :
    process_single_summary chain writeOk company text st
      = ((company, "Skipped due to previous error or empty text."), st) := by
  rcases h with h | ⟨t, ht, hc⟩
  · rw [h]; rfl
  · rw [ht]
    unfold process_single_summary
    rcases hc with h | h | h | h <;> simp [h]

/-- C6 witness: an Error-tagged text is skipped with counters unchanged. -/
theorem summarize_skip_sentinel_witness :
    process_single_summary (fun _ => Except.ok "S") true "A" (some "Error: boom") ⟨[], 0, 0⟩
      = (("A", "Skipped due to previous error or empty text."), ⟨[], 0, 0⟩) :=
  summarize_skip_sentinel _ _ _ _ _ (Or.inr ⟨"Error: boom", rfl, Or.inl (by decide)⟩)

/-- C9 counterexample: the completion response A, A parses to the list
[A, A], which identify_companies stores as the companies field although it
contains a duplicate. -/
theorem identify_companies_dup_ce :
    (identify_companies (fun _ => Except.ok "A, A")
        ⟨none, some "tech", none, none, none, none, none, none, none⟩).companies
      = some ["A", "A"]
    ∧ ¬ (["A", "A"] : List String).Nodup := by
  exact ⟨by decide, by decide⟩

/-- C9 amended: the entities list is the ordered list of nonempty trimmed
comma segments of the response, duplicates permitted; an empty parse sets
error_message instead of storing an empty list. -/
theorem identify_companies_parse (oracle : String → Except String String) (st : GraphState)
    (resp : String) (he : st.error_message = none)
    (hok : oracle (st.industry.getD "") = Except.ok resp) :
    (parse_companies resp = [] →
      (identify_companies oracle st).error_message
        = some ("Could not identify companies for industry \x27" ++ st.industry.getD "" ++ "\x27.")
      ∧ (identify_companies oracle st).companies = st.companies)
    ∧ (parse_companies resp ≠ [] →
      (identify_companies oracle st).companies = some (parse_companies resp)
      ∧ (identify_companies oracle st).error_message = none) := by
  constructor
  · intro hp
    unfold identify_companies
    simp [he, hok, hp]
  · intro hp
    have hne : (parse_companies resp).isEmpty = false := by
      cases hq : parse_companies resp with
      | nil => exact absurd hq hp
      | cons a as => rfl
    unfold identify_companies
    simp [he, hok, hne]

/-- C9 witness: a response with two entities parses to both in order, with
no error recorded. -/
theorem identify_companies_parse_witness :
    (identify_companies (fun _ => Except.ok "Apple, Tesla")
        ⟨none, some "tech", none, none, none, none, none, none, none⟩).companies
      = some ["Apple", "Tesla"]
    ∧ (identify_companies (fun _ => Except.ok "Apple, Tesla")
        ⟨none, some "tech", none, none, none, none, none, none, none⟩).error_message = none := by
  have h := (identify_companies_parse (fun _ => Except.ok "Apple, Tesla")
    ⟨none, some "tech", none, none, none, none, none, none, none⟩ "Apple, Tesla" rfl rfl).2
    (by decide)
  have hp : parse_companies "Apple, Tesla" = ["Apple", "Tesla"] := by decide
  exact ⟨hp ▸ h.1, h.2⟩

/-- C10 counterexample: a stored row whose start_time is the empty string
is non-null, yet an update passing start_time None replaces it with null
instead of preserving it. -/
theorem log_task_status_empty_start_ce :
    log_task_status 1 "t1" "ind" "RUNNING" none none none
        [⟨"t1", "ind", "PENDING", none, some "", none, 0⟩]
      = [⟨"t1", "ind", "RUNNING", none, none, none, 1⟩]
    ∧ (some "" : Option String) ≠ none := by
  exact ⟨by decide, by decide⟩

/-- C10 amended: for a task id already present whose stored start_time is
non-null and nonempty, log_task_status with start_time None leaves exactly
one row for that id, preserving the stored start_time while replacing
status, result_summary and duration. -/
theorem log_task_status_update_in_place (now : Nat) (tid ind status : String)
    (rs : Option String) (dur : Option Int) (tbl : List TaskRecord) (r : TaskRecord) (s : String)
    (hfind : tbl.find? (fun x => x.task_id == tid) = some r)
    (hst : r.start_time = some s) (hs : ¬ s = "") :
    (log_task_status now tid ind status rs none dur tbl).countP (fun x => x.task_id == tid) = 1
    ∧ (log_task_status now tid ind status rs none dur tbl).find? (fun x => x.task_id == tid)
        = some ⟨tid, ind, status, rs, some s, dur, now⟩ := by
  have hb : (s == "") = false := by simpa using hs
  have hfst : finalStartTime (some r) none = some s := by
    simp [finalStartTime, pyTruthy, hst, hb]
  unfold log_task_status
  rw [hfind, hfst]
  refine ⟨countP_filtered_append tbl _ _ ?_, find_filtered_append tbl _ _ ?_⟩ <;>
    exact beq_self_eq_true tid

/-- C10 witness: updating an existing Pending row to Running with no
start_time keeps the single row and its stored start_time. -/
theorem log_task_status_update_in_place_witness :
    (log_task_status 5 "t1" "i2" "RUNNING" (some "ok") none (some 9)
        [⟨"t1", "ind", "PENDING", none, some "2024-01-01", none, 0⟩]).countP
        (fun x => x.task_id == "t1") = 1
    ∧ (log_task_status 5 "t1" "i2" "RUNNING" (some "ok") none (some 9)
        [⟨"t1", "ind", "PENDING", none, some "2024-01-01", none, 0⟩]).find?
        (fun x => x.task_id == "t1")
      = some ⟨"t1", "i2", "RUNNING", some "ok", some "2024-01-01", some 9, 5⟩ :=
  log_task_status_update_in_place 5 "t1" "i2" "RUNNING" (some "ok") (some 9)
    [⟨"t1", "ind", "PENDING", none, some "2024-01-01", none, 0⟩]
    ⟨"t1", "ind", "PENDING", none, some "2024-01-01", none, 0⟩ "2024-01-01"
    (by decide) rfl (by decide)

/-- C1: both parallel fan-out executors (download/extract and
summarization) return a mapping with exactly the key sequence of the input
mapping; in each executor a job that raises yields the Error sentinel for
its own key, and changing the worker behaviour at one key never alters any
sibling key entry. The summarization conjuncts take chainProvided = true
because workers only run when the chain is provided. -/
theorem fanout_preserves_keys
    (job : String → Option String → Except String String)
    (jobS : String → String → Except String String) (chainProvided : Bool)
    (urls : List (String × Option String)) (texts : List (String × String)) :
    ((download_and_extract_reports job urls).map Prod.fst = urls.map Prod.fst)
    ∧ ((summarize_extracted_texts chainProvided jobS texts).map Prod.fst = texts.map Prod.fst)
    ∧ (∀ c u e, (c, u) ∈ urls → job c u = Except.error e →
        (c, "Error retrieving download/extract result: " ++ e)
          ∈ download_and_extract_reports job urls)
    ∧ (∀ job2 : String → Option String → Except String String, ∀ k : String,
        (∀ c u, c ≠ k → job2 c u = job c u) →
        (download_and_extract_reports job2 urls).filter (fun p => !(p.1 == k))
          = (download_and_extract_reports job urls).filter (fun p => !(p.1 == k)))
    ∧ (∀ c t e, (c, t) ∈ texts → jobS c t = Except.error e →
        (c, "Error retrieving summarization result: " ++ e)
          ∈ summarize_extracted_texts true jobS texts)
    ∧ (∀ jobS2 : String → String → Except String String, ∀ k : String,
        (∀ c t, c ≠ k → jobS2 c t = jobS c t) →
        (summarize_extracted_texts true jobS2 texts).filter (fun p => !(p.1 == k))
          = (summarize_extracted_texts true jobS texts).filter (fun p => !(p.1 == k))) :=
  ⟨dler_map_fst job urls, sum_map_fst chainProvided jobS texts,
   fun c u e hm hj => dler_error_mem job urls c u e hm hj,
   fun job2 k hagree => dler_sibling_indep job job2 urls k hagree,
   fun c t e hm hj => sum_error_mem jobS texts c t e hm hj,
   fun jobS2 k hagree => sum_sibling_indep jobS jobS2 texts k hagree⟩

/-- C1 witness: in each executor, with a worker that raises on key A only,
the key set is preserved and key A carries that executor Error sentinel. -/
theorem fanout_preserves_keys_witness :
    ((download_and_extract_reports (fun c _ => if c == "A" then Except.error "boom" else Except.ok "text")
        [("A", some "u"), ("B", none)]).map Prod.fst = ["A", "B"])
    ∧ (("A", "Error retrieving download/extract result: boom")
        ∈ download_and_extract_reports (fun c _ => if c == "A" then Except.error "boom" else Except.ok "text")
          [("A", some "u"), ("B", none)])
    ∧ ((summarize_extracted_texts true (fun c _ => if c == "A" then Except.error "crash" else Except.ok "sum")
        [("A", "t1"), ("B", "t2")]).map Prod.fst = ["A", "B"])
    ∧ (("A", "Error retrieving summarization result: crash")
        ∈ summarize_extracted_texts true (fun c _ => if c == "A" then Except.error "crash" else Except.ok "sum")
          [("A", "t1"), ("B", "t2")]) := by
  have h := fanout_preserves_keys
    (fun c _ => if c == "A" then Except.error "boom" else Except.ok "text")
    (fun c _ => if c == "A" then Except.error "crash" else Except.ok "sum")
    true [("A", some "u"), ("B", none)] [("A", "t1"), ("B", "t2")]
  exact ⟨h.1, h.2.2.1 "A" (some "u") "boom" (by decide) rfl,
    h.2.1, h.2.2.2.2.1 "A" "t1" "crash" (by decide) rfl⟩

/-- inductive core for C4: over fresh, duplicate-free companies the search
loop issues exactly one tool call per company and appends its record. -/
theorem searchLoop_fresh (toolRun : String → Except String String) :
    ∀ (companies : List String) (urls : List (String × Option String)) (n : Nat),
      companies.Nodup → (∀ c ∈ companies, hasKey urls c = false) →
      searchLoop toolRun companies urls n
        = (urls ++ companies.map (fun c => (c, searchRecord toolRun c)), n + companies.length) := by
  intro companies
  induction companies with
  | nil => intro urls n _ _; simp [searchLoop]
  | cons c rest ih =>
    intro urls n hn hf
    have hc : hasKey urls c = false := hf c (List.mem_cons_self c rest)
    rw [searchLoop]
    simp only [hc, Bool.false_eq_true, if_false]
    have hrest : ∀ x ∈ rest, hasKey (urls ++ [(c, searchRecord toolRun c)]) x = false := by
      intro x hx
      rw [hasKey_append]
      have h1 : hasKey urls x = false := hf x (List.mem_cons_of_mem _ hx)
      have hne : (c == x) = false := by
        have : c ≠ x := fun h => (List.nodup_cons.mp hn).1 (h ▸ hx)
        simpa using this
      have h2 : hasKey [(c, searchRecord toolRun c)] x = false := by
        simp [hasKey, hne]
      rw [h1, h2]
      rfl
    rw [ih _ _ (List.nodup_cons.mp hn).2 hrest]
    refine congrArg₂ Prod.mk ?_ ?_
    · simp [List.append_assoc]
    · simp only [List.length_cons]
      omega

/-- C4 counterexample: with a provider that raises on every call, the
DiscoverDocuments stage performs exactly one search for the entity (not 3
retries) and records a None sentinel (not an Error sentinel), because the
provider exception is swallowed inside the search tool as result text. -/
theorem search_retry_ce :
    search_for_reports
        (fun q => Except.ok (perform_duckduckgo_search (fun _ => Except.error "connection reset") q 5))
        ["A"] []
      = ([("A", (none : Option String))], 1)
    ∧ ¬ (search_for_reports
        (fun q => Except.ok (perform_duckduckgo_search (fun _ => Except.error "connection reset") q 5))
        ["A"] []).2 = 3 := by
  exact ⟨by decide, by decide⟩

/-- C4 amended: for every entity not already resolved the stage issues the
search exactly once, with no retry; the record is the Error sentinel only
when the tool invocation itself raises, the first URL ending in .pdf on
success, and a None sentinel when no such URL is found (including when a
provider failure surfaces as error text). -/
theorem search_for_reports_single_attempt (toolRun : String → Except String String)
    (companies : List String) (urls : List (String × Option String))
    (hn : companies.Nodup) (hf : ∀ c ∈ companies, hasKey urls c = false) :
    search_for_reports toolRun companies urls
      = (urls ++ companies.map (fun c => (c, searchRecord toolRun c)), companies.length) := by
  have h := searchLoop_fresh toolRun companies urls 0 hn hf
  simpa [search_for_reports] using h

/-- C4 amended witness: two fresh companies trigger exactly two searches
and record the first .pdf URL of each result. -/
theorem search_for_reports_single_attempt_witness :
    search_for_reports (fun _ => Except.ok "see https://a.com/r.pdf here") ["A", "B"] []
      = ([("A", some "https://a.com/r.pdf"), ("B", some "https://a.com/r.pdf")], 2) := by
  rw [search_for_reports_single_attempt (fun _ => Except.ok "see https://a.com/r.pdf here")
    ["A", "B"] [] (by decide) (by decide)]
  decide

/-- C7 counterexample: with a completion service returning empty output,
two consecutive summarization calls on valid text with the cache unchanged
in between invoke the service twice, refuting at most once in total. -/
theorem summary_recompute_ce :
    ((process_single_summary (fun _ => Except.ok "") true "A" (some "hello")
        (process_single_summary (fun _ => Except.ok "") true "A" (some "hello")
          ⟨[], 0, 0⟩).2).2.llmCalls = 2)
    ∧ ¬ ((process_single_summary (fun _ => Except.ok "") true "A" (some "hello")
        (process_single_summary (fun _ => Except.ok "") true "A" (some "hello")
          ⟨[], 0, 0⟩).2).2.llmCalls ≤ 1) := by
  exact ⟨by decide, by decide⟩

/-- use of the summary cache under a valid text: one fixed rewriting of
process_single_summary once the skip guard is known false. -/
theorem process_single_summary_nonskip (chain : String → Except String String)
    (writeOk : Bool) (company t : String) (st1 : SumSt)
    (hv1 : strStartsWith t "Error" = false) (hv2 : strStartsWith t "Warning" = false)
    (hv3 : (t == "No valid URL found.") = false) (hv4 : (strTrim t == "") = false) :
    process_single_summary chain writeOk company (some t) st1
      = match listLookup st1.cache (cacheFilename company) with
        | some (.readable c) => ((company, c), { st1 with cacheReads := st1.cacheReads + 1 })
        | some .unreadable =>
          summaryComputeBranch chain writeOk company t { st1 with cacheReads := st1.cacheReads + 1 }
        | none => summaryComputeBranch chain writeOk company t st1 := by
  unfold process_single_summary
  simp only [hv1, hv2, hv3, hv4, Bool.or_self, Bool.false_or, Bool.false_eq_true, if_false]

/-- C7 amended: for valid text, when the first computation succeeds with a
nonempty summary and the cache write succeeds, running the step twice with
the cache unchanged in between returns byte-identical text both times with
at most one completion-service call in total; a read failure on an
existing cache file (unreadable entry) falls through to recomputation
instead of failing the call. -/
theorem summary_cache_idempotent (chain : String → Except String String)
    (company t s : String) (st : SumSt)
    (hv1 : strStartsWith t "Error" = false) (hv2 : strStartsWith t "Warning" = false)
    (hv3 : (t == "No valid URL found.") = false) (hv4 : (strTrim t == "") = false)
    (hc : chain t = Except.ok s) (hs : ¬ s = "") :
    ((process_single_summary chain true company (some t)
        (process_single_summary chain true company (some t) st).2).1.2
      = (process_single_summary chain true company (some t) st).1.2)
    ∧ ((process_single_summary chain true company (some t)
        (process_single_summary chain true company (some t) st).2).2.llmCalls ≤ st.llmCalls + 1)
    ∧ (listLookup st.cache (cacheFilename company) = some CacheFile.unreadable →
        (process_single_summary chain true company (some t) st).1.2 = s
        ∧ (process_single_summary chain true company (some t) st).2.llmCalls = st.llmCalls + 1) := by
  have hcompute : ∀ st1 : SumSt, summaryComputeBranch chain true company t st1
      = ((company, s),
         { st1 with
            cache := (cacheFilename company, .readable s)
              :: st1.cache.filter (fun e => !(e.1 == cacheFilename company)),
            llmCalls := st1.llmCalls + 1 }) := by
    intro st1
    unfold summaryComputeBranch
    rw [hc]
    simp [hs]
  have hone := fun st1 =>
    process_single_summary_nonskip chain true company t st1 hv1 hv2 hv3 hv4
  cases hl : listLookup st.cache (cacheFilename company) with
  | none =>
    have e1 : process_single_summary chain true company (some t) st
        = ((company, s),
           ⟨(cacheFilename company, CacheFile.readable s)
              :: st.cache.filter (fun e => !(e.1 == cacheFilename company)),
            st.cacheReads, st.llmCalls + 1⟩) := by
      rw [hone st, hl, hcompute st]
    have e2 : process_single_summary chain true company (some t)
        ⟨(cacheFilename company, CacheFile.readable s)
           :: st.cache.filter (fun e => !(e.1 == cacheFilename company)),
         st.cacheReads, st.llmCalls + 1⟩
        = ((company, s),
           ⟨(cacheFilename company, CacheFile.readable s)
              :: st.cache.filter (fun e => !(e.1 == cacheFilename company)),
            st.cacheReads + 1, st.llmCalls + 1⟩) := by
      rw [hone _]
      simp [listLookup]
    simp only [e1, e2]
    simp [hl]
  | some cf =>
    cases cf with
    | readable c =>
      have e1 : process_single_summary chain true company (some t) st
          = ((company, c), ⟨st.cache, st.cacheReads + 1, st.llmCalls⟩) := by
        rw [hone st, hl]
      have e2 : process_single_summary chain true company (some t)
          ⟨st.cache, st.cacheReads + 1, st.llmCalls⟩
          = ((company, c), ⟨st.cache, st.cacheReads + 1 + 1, st.llmCalls⟩) := by
        rw [hone _]
        simp [hl]
      simp only [e1, e2]
      simp [hl, Nat.le_succ]
    | unreadable =>
      have e1 : process_single_summary chain true company (some t) st
          = ((company, s),
             ⟨(cacheFilename company, CacheFile.readable s)
                :: st.cache.filter (fun e => !(e.1 == cacheFilename company)),
              st.cacheReads + 1, st.llmCalls + 1⟩) := by
        rw [hone st, hl, hcompute _]
      have e2 : process_single_summary chain true company (some t)
          ⟨(cacheFilename company, CacheFile.readable s)
             :: st.cache.filter (fun e => !(e.1 == cacheFilename company)),
           st.cacheReads + 1, st.llmCalls + 1⟩
          = ((company, s),
             ⟨(cacheFilename company, CacheFile.readable s)
                :: st.cache.filter (fun e => !(e.1 == cacheFilename company)),
              st.cacheReads + 1 + 1, st.llmCalls + 1⟩) := by
        rw [hone _]
        simp [listLookup]
      simp only [e1, e2]
      simp [hl]

/-- C7 amended witness: a successful first summarization populates the
cache, the second call reads it back byte-identically, and the service is
called once in total. -/
theorem summary_cache_idempotent_witness :
    ((process_single_summary (fun _ => Except.ok "S") true "A" (some "text")
        (process_single_summary (fun _ => Except.ok "S") true "A" (some "text")
          ⟨[], 0, 0⟩).2).1.2
      = (process_single_summary (fun _ => Except.ok "S") true "A" (some "text") ⟨[], 0, 0⟩).1.2)
    ∧ ((process_single_summary (fun _ => Except.ok "S") true "A" (some "text")
        (process_single_summary (fun _ => Except.ok "S") true "A" (some "text")
          ⟨[], 0, 0⟩).2).2.llmCalls ≤ 0 + 1) :=
  have h := summary_cache_idempotent (fun _ => Except.ok "S") "A" "text" "S" ⟨[], 0, 0⟩
    (by decide) (by decide) (by decide) (by decide) rfl (by decide)
  ⟨h.1, h.2.1⟩

/-- retry-loop invariant for C2: whenever the loop returns the cache path,
a file exists at that path in the returned filesystem (error returns are
distinguished from the path by their first character). -/
theorem dlGo_path_mem (url path : String) (oracle : Nat → Fetch)
    (hp : headChar path = some 'p') :
    ∀ (fuel attempt : Nat) (fs : FileSys) (calls : Nat),
      (dlGo url path oracle fuel attempt fs calls).1 = path →
      fsExists (dlGo url path oracle fuel attempt fs calls).2.1 path = true := by
  intro fuel
  induction fuel with
  | zero =>
    intro attempt fs calls h
    exact absurd h (strNe_of_headChar _ _ 'E' 'p'
      (headChar_append _ _ _ (headChar_append _ _ _ rfl)) hp (by decide))
  | succ fuel ih =>
    intro attempt fs calls h
    cases ho : oracle attempt with
    | success content =>
      simp only [dlGo, ho] at h ⊢
      exact fsExists_fsWrite_self _ _ _
    | timeout lo msg =>
      simp only [dlGo, ho] at h ⊢
      by_cases hf : fuel = 0
      · simp only [hf, if_true, eq_self_iff_true, ite_true] at h
        exact absurd h (strNe_of_headChar _ _ 'E' 'p'
          (headChar_append _ _ _ (headChar_append _ _ _ rfl)) hp (by decide))
      · simp only [hf, if_false, ite_false] at h ⊢
        exact ih _ _ _ h
    | reqErr lo msg =>
      simp only [dlGo, ho] at h ⊢
      by_cases hf : fuel = 0
      · simp only [hf, if_true, eq_self_iff_true, ite_true] at h
        exact absurd h (strNe_of_headChar _ _ 'E' 'p'
          (headChar_append _ _ _ (headChar_append _ _ _ rfl)) hp (by decide))
      · simp only [hf, if_false, ite_false] at h ⊢
        exact ih _ _ _ h
    | unexpected lo msg =>
      simp only [dlGo, ho] at h ⊢
      by_cases hf : fuel = 0
      · simp only [hf, if_true, eq_self_iff_true, ite_true] at h
        exact absurd h (strNe_of_headChar _ _ 'E' 'p'
          (headChar_append _ _ _ (headChar_append _ _ _ rfl)) hp (by decide))
      · simp only [hf, if_false, ite_false] at h ⊢
        exact ih _ _ _ h

/-- C2 counterexample: a first call that succeeds on its second attempt
(timeout, then success) performs two fetches, so the two sequential calls
invoke the fetcher twice in total, refuting at most once in total. -/
theorem download_pdf_fetch_twice_ce :
    ((download_pdf (fun _ => "h")
        (fun n => if n == 0 then Fetch.timeout none "t" else Fetch.success [7])
        "http://a.com/r.pdf" []).1 = cachePath (fun _ => "h") "http://a.com/r.pdf")
    ∧ ((download_pdf (fun _ => "h")
        (fun n => if n == 0 then Fetch.timeout none "t" else Fetch.success [7])
        "http://a.com/r.pdf" []).2.2
      + (download_pdf (fun _ => "h") (fun _ => Fetch.success [7]) "http://a.com/r.pdf"
          (download_pdf (fun _ => "h")
            (fun n => if n == 0 then Fetch.timeout none "t" else Fetch.success [7])
            "http://a.com/r.pdf" []).2.1).2.2 = 2)
    ∧ ¬ ((download_pdf (fun _ => "h")
        (fun n => if n == 0 then Fetch.timeout none "t" else Fetch.success [7])
        "http://a.com/r.pdf" []).2.2
      + (download_pdf (fun _ => "h") (fun _ => Fetch.success [7]) "http://a.com/r.pdf"
          (download_pdf (fun _ => "h")
            (fun n => if n == 0 then Fetch.timeout none "t" else Fetch.success [7])
            "http://a.com/r.pdf" []).2.1).2.2 ≤ 1) := by
  exact ⟨by decide, by decide, by decide⟩

/-- C2 amended: whenever the first download_pdf call succeeds (returns the
deterministically derived cache path), the second call with the same URL
returns the same path with the filesystem unchanged and performs zero
fetches; the fetcher is invoked only within the first call, exactly once
when its first attempt succeeds on a cache miss. -/
theorem download_pdf_cache_second_call (sha256hex : String → String)
    (oracle oracle2 : Nat → Fetch) (url : String) (fs0 : FileSys)
    (hok : (download_pdf sha256hex oracle url fs0).1 = cachePath sha256hex url) :
    ((download_pdf sha256hex oracle2 url (download_pdf sha256hex oracle url fs0).2.1).1
        = (download_pdf sha256hex oracle url fs0).1)
    ∧ ((download_pdf sha256hex oracle2 url (download_pdf sha256hex oracle url fs0).2.1).2.1
        = (download_pdf sha256hex oracle url fs0).2.1)
    ∧ ((download_pdf sha256hex oracle2 url (download_pdf sha256hex oracle url fs0).2.1).2.2 = 0)
    ∧ (∀ content, oracle 0 = Fetch.success content →
        fsExists fs0 (cachePath sha256hex url) = false →
        (download_pdf sha256hex oracle url fs0).2.2 = 1) := by
  have hpath : headChar (cachePath sha256hex url) = some 'p' :=
    headChar_append _ _ _ (headChar_append _ _ _ rfl)
  by_cases hv : is_valid_url url
  case neg =>
    exfalso
    have hbad : download_pdf sha256hex oracle url fs0
        = ("Error: Invalid URL provided: " ++ url, fs0, 0) := by
      simp [download_pdf, hv]
    rw [hbad] at hok
    have hE : headChar ("Error: Invalid URL provided: " ++ url) = some 'E' :=
      headChar_append "Error: Invalid URL provided: " url 'E' rfl
    exact strNe_of_headChar _ _ 'E' 'p' hE hpath (by decide) hok
  case pos =>
    by_cases hex : fsExists fs0 (cachePath sha256hex url)
    · have e1 : download_pdf sha256hex oracle url fs0 = (cachePath sha256hex url, fs0, 0) := by
        simp [download_pdf, hv, hex]
      have e2 : download_pdf sha256hex oracle2 url fs0 = (cachePath sha256hex url, fs0, 0) := by
        simp [download_pdf, hv, hex]
      refine ⟨by simp [e1, e2], by simp [e1, e2], by simp [e1, e2],
        fun content hco hmiss => ?_⟩
      rw [hex] at hmiss
      cases hmiss
    · have e1 : download_pdf sha256hex oracle url fs0
          = dlGo url (cachePath sha256hex url) oracle 3 0 fs0 0 := by
        simp [download_pdf, hv, hex]
      have hmem : fsExists (download_pdf sha256hex oracle url fs0).2.1
          (cachePath sha256hex url) = true := by
        rw [e1]
        exact dlGo_path_mem url _ oracle hpath 3 0 fs0 0 (by rw [← e1]; exact hok)
      set fs1 := (download_pdf sha256hex oracle url fs0).2.1 with hfs1
      have e2 : download_pdf sha256hex oracle2 url fs1
          = (cachePath sha256hex url, fs1, 0) := by
        simp [download_pdf, hv, hmem]
      refine ⟨?_, ?_, ?_, fun content hco hmiss => ?_⟩
      · rw [e2]
        exact hok.symm
      · rw [e2]
      · rw [e2]
      · rw [e1]
        simp [dlGo, hco]

/-- C2 witness: a URL fetched successfully once is served from the cache
on the second call with zero additional fetches. -/
theorem download_pdf_cache_second_call_witness :
    ((download_pdf (fun _ => "h") (fun _ => Fetch.success [1]) "http://a.com/r.pdf"
        (download_pdf (fun _ => "h") (fun _ => Fetch.success [1]) "http://a.com/r.pdf" []).2.1).2.2
      = 0)
    ∧ ((download_pdf (fun _ => "h") (fun _ => Fetch.success [1]) "http://a.com/r.pdf" []).2.2 = 1) :=
  have h := download_pdf_cache_second_call (fun _ => "h") (fun _ => Fetch.success [1])
    (fun _ => Fetch.success [1]) "http://a.com/r.pdf" [] (by decide)
  ⟨h.2.2.1, h.2.2.2 [1] rfl (by decide)⟩

/-- C3: when a URL misses the cache and all 3 fetch attempts time out,
download_pdf returns an Error string that contains after 3 attempts, no
exception escapes (the function is total by construction), no file exists
at the derived cache path afterwards, and exactly 3 fetches occurred. -/
theorem download_pdf_timeout_exhaustion (sha256hex : String → String) (oracle : Nat → Fetch)
    (url : String) (fs : FileSys) (lo0 lo1 lo2 : Option (List Nat)) (m0 m1 m2 : String)
    (hv : is_valid_url url = true)
    (hmiss : fsExists fs (cachePath sha256hex url) = false)
    (h0 : oracle 0 = Fetch.timeout lo0 m0) (h1 : oracle 1 = Fetch.timeout lo1 m1)
    (h2 : oracle 2 = Fetch.timeout lo2 m2) :
    ((download_pdf sha256hex oracle url fs).1
        = "Error: Failed to download PDF from " ++ url
            ++ (" after 3 attempts due to timeout. Reason: " ++ m2))
    ∧ strContains (download_pdf sha256hex oracle url fs).1 "after 3 attempts"
    ∧ fsExists (download_pdf sha256hex oracle url fs).2.1 (cachePath sha256hex url) = false
    ∧ (download_pdf sha256hex oracle url fs).2.2 = 3 := by
  have e0 : download_pdf sha256hex oracle url fs
      = dlGo url (cachePath sha256hex url) oracle 3 0 fs 0 := by
    simp [download_pdf, hv, hmiss]
  have e1 : dlGo url (cachePath sha256hex url) oracle 3 0 fs 0
      = ("Error: Failed to download PDF from " ++ url
            ++ (" after 3 attempts due to timeout. Reason: " ++ m2),
         fsRemove (applyLeftover (applyLeftover (applyLeftover fs (cachePath sha256hex url) lo0)
             (cachePath sha256hex url) lo1) (cachePath sha256hex url) lo2)
           (cachePath sha256hex url),
         3) := by
    simp [dlGo, h0, h1, h2]
  rw [e0, e1]
  refine ⟨rfl, ?_, fsExists_fsRemove_self _ _, rfl⟩
  have hmid : (" after 3 attempts due to timeout. Reason: " : String).data
      = (" " : String).data ++ ("after 3 attempts" : String).data
          ++ (" due to timeout. Reason: " : String).data := by decide
  refine ⟨("Error: Failed to download PDF from " : String).data ++ url.data ++ (" " : String).data,
    (" due to timeout. Reason: " : String).data ++ m2.data, ?_⟩
  simp [strDataAppend, hmid, List.append_assoc]

/-- C3 witness: a concrete URL whose three attempts all time out yields
the Error string, an empty filesystem at the cache path, and 3 fetches. -/
theorem download_pdf_timeout_exhaustion_witness :
    ((download_pdf (fun _ => "h") (fun _ => Fetch.timeout none "t") "http://a.com/r.pdf" []).1
        = "Error: Failed to download PDF from " ++ "http://a.com/r.pdf"
            ++ (" after 3 attempts due to timeout. Reason: " ++ "t"))
    ∧ strContains (download_pdf (fun _ => "h") (fun _ => Fetch.timeout none "t")
        "http://a.com/r.pdf" []).1 "after 3 attempts"
    ∧ fsExists (download_pdf (fun _ => "h") (fun _ => Fetch.timeout none "t")
        "http://a.com/r.pdf" []).2.1 (cachePath (fun _ => "h") "http://a.com/r.pdf") = false
    ∧ (download_pdf (fun _ => "h") (fun _ => Fetch.timeout none "t")
        "http://a.com/r.pdf" []).2.2 = 3 :=
  download_pdf_timeout_exhaustion (fun _ => "h") (fun _ => Fetch.timeout none "t")
    "http://a.com/r.pdf" [] none none none "t" "t" "t" (by decide) (by decide) rfl rfl rfl

end SearchAgent
